import Mathlib

/-!
Shallow embedding of the Zappy repository's multi-select / batch-install
core: `zappy/utils/ui.py` (selector parsing), `zappy/utils/distro.py`
(platform detection and package-manager commands), `zappy/utils/command.py`
(command runner, whose source text is the one in `vps_toolbox/utils/command.py`,
the pre-rename copy of the same file in this repository), and
`zappy/modules/system/packages.py` (catalog, install planning, batch
installation).

Python strings are Lean `String`s, Python ints are Lean `Int`/`Nat`,
Python lists are Lean `List`s, `None`-or-value is `Option`.  External
process execution is modelled by an abstract `Runner` record: a state type
`σ` together with an `exec` function giving each argv an exit code, stdout,
stderr and a successor state, and a read-only `which` predicate for
`shutil.which`.  Functions that run commands in Python thread `σ`
explicitly here.
-/

/-! ### Python string primitives -/

/-- The characters Python's `str.strip()` removes (ASCII whitespace). -/
def pyWhitespace (c : Char) : Bool :=
  c == ' ' || c == '\t' || c == '\n' || c == '\r' || c == '\x0b' || c == '\x0c'

/-- Python `str.strip()` on a character list. -/
def pyStripList (l : List Char) : List Char :=
  ((l.dropWhile pyWhitespace).reverse.dropWhile pyWhitespace).reverse

/-- Python `str.strip()`. -/
def pyStrip (s : String) : String :=
  ⟨pyStripList s.data⟩

/-- Python `str.strip('"')`: remove every leading and trailing `"`. -/
def pyStripQuotes (s : String) : String :=
  ⟨((s.data.dropWhile (· == '"')).reverse.dropWhile (· == '"')).reverse⟩

/-- Python `str.lower()` (ASCII letters; the repository's inputs are ASCII). -/
def pyLower (s : String) : String :=
  ⟨s.data.map Char.toLower⟩

/-- Digit-run tail of Python `int()` after the first digit: digits with single
underscores standing between digits. -/
def pyDigitsAcc (acc : Nat) : List Char → Option Nat
  | [] => some acc
  | '_' :: c :: rest =>
    if c.isDigit then pyDigitsAcc (acc * 10 + (c.toNat - 48)) rest else none
  | c :: rest =>
    if c.isDigit then pyDigitsAcc (acc * 10 + (c.toNat - 48)) rest else none

/-- Nonempty digit run starting with a digit (Python `int()` body). -/
def pyDigitRun : List Char → Option Nat
  | c :: rest => if c.isDigit then pyDigitsAcc (c.toNat - 48) rest else none
  | [] => none

/-- Python `int(s)`: optional surrounding whitespace, optional sign, then a
digit run (underscores allowed between digits); `none` when `int` raises
`ValueError`. -/
def pyInt (s : String) : Option Int :=
  match pyStripList s.data with
  | '+' :: rest => (pyDigitRun rest).map Int.ofNat
  | '-' :: rest => (pyDigitRun rest).map (fun n => -(n : Int))
  | l => (pyDigitRun l).map Int.ofNat

/-- Split a character list at every character satisfying `p`, keeping empty
pieces (Python `str.split(sep)` semantics for a one-character separator). -/
def splitCharsBy (p : Char → Bool) : List Char → List (List Char)
  | [] => [[]]
  | c :: rest =>
    let r := splitCharsBy p rest
    if p c then [] :: r
    else
      match r with
      | h :: t => (c :: h) :: t
      | [] => [[c]]

/-- Python `s.split(sep)` for a one-character separator. -/
def pySplitChar (sep : Char) (s : String) : List String :=
  (splitCharsBy (· == sep) s.data).map (fun l => ⟨l⟩)

/-- Membership of a character in a string (Python `c in s`). -/
def pyContainsChar (c : Char) (s : String) : Bool :=
  s.data.contains c

/-- Python `s.startswith(p)`. -/
def pyStartswith (p s : String) : Bool :=
  p.data.isPrefixOf s.data

/-- Python `str.split()` with no separator: split on whitespace runs,
dropping empty pieces. -/
def pySplitWs (s : String) : List String :=
  ((splitCharsBy pyWhitespace s.data).map (fun l => (⟨l⟩ : String))).filter (· ≠ "")

/-- Python `str.splitlines()` restricted to `\n` separators: like splitting
on newlines but without a trailing empty piece. -/
def pySplitlines (s : String) : List String :=
  if s = "" then []
  else
    let parts := pySplitChar '\n' s
    if parts.getLast? = some "" then parts.dropLast else parts

/-- Python `line.split("=", 1)[1]`: everything after the first `=` (empty
when there is no `=`; the source only applies it to lines containing `=`). -/
def pySplitEq1 (line : String) : String :=
  ⟨(line.data.dropWhile (· ≠ '=')).tail⟩

/-! ### `zappy/utils/ui.py`: `parse_multi_select_indices`

The Python function takes `special_keywords: Dict[str, List[int]]`; the
dict is modelled as an insertion-ordered association list, and the
comprehension `{k.lower(): v for k, v in ...}` (later bindings overwrite
earlier ones) as a last-binding-wins lookup over the lowered keys. -/

/-- Lookup in the lowered keyword dict: the value of the last pair whose
lowered key matches (Python dict-comprehension overwrite semantics). -/
def dictLookup (m : List (String × List Int)) (k : String) : Option (List Int) :=
  ((m.map (fun p => (pyLower p.1, p.2))).reverse.find? (fun p => p.1 == k)).map (·.2)

/-- Message for empty input. -/
def errEmptyInput : String :=
  "Input is empty. Enter numbers, ranges, or a supported keyword."

/-- Message for a keyword expanding to an out-of-range index. -/
def errKeywordOutOfRange (value : String) (item_count : Nat) (idx : Int) : String :=
  "Keyword '" ++ value ++ "' contains out-of-range value: " ++ toString (idx + 1) ++
    ". Valid range is 1-" ++ toString item_count ++ "."

/-- Message for an empty token between commas. -/
def errMalformedEmpty : String :=
  "Malformed token: empty value between commas."

/-- Message for a `-` token that does not split into two nonempty parts. -/
def errMalformedRangeShape (token : String) : String :=
  "Malformed token '" ++ token ++ "'. Expected range like '4-7'."

/-- Message for a range whose parts are not numbers. -/
def errMalformedRangeNum (token : String) : String :=
  "Malformed token '" ++ token ++ "'. Range values must be numbers."

/-- Message for a range with start above end. -/
def errInvalidRange (token : String) : String :=
  "Invalid range '" ++ token ++ "'. Range start must be less than or equal to range end."

/-- Message for a range token with an endpoint out of bounds. -/
def errOutOfRangeToken (token : String) (item_count : Nat) : String :=
  "Out-of-range value in '" ++ token ++ "'. Valid range is 1-" ++ toString item_count ++ "."

/-- Message for a non-numeric single token. -/
def errMalformedNum (token : String) : String :=
  "Malformed token '" ++ token ++ "'. Expected number or range like '4-7'."

/-- Message for a single number out of bounds. -/
def errOutOfRangeNum (num : Int) (item_count : Nat) : String :=
  "Out-of-range value '" ++ toString num ++ "'. Valid range is 1-" ++ toString item_count ++ "."

/-- The keyword-branch validation loop: the first index outside
`[0, item_count)` produces the keyword error, else `none`. -/
def keywordScan (value : String) (item_count : Nat) : List Int → Option String
  | [] => none
  | idx :: rest =>
    if 0 ≤ idx ∧ idx < (item_count : Int) then keywordScan value item_count rest
    else some (errKeywordOutOfRange value item_count idx)

/-- `[i for i in range(item_count) if i in selected]`: the final rendering of
the working set in ascending menu order. -/
def renderSelected (item_count : Nat) (selected : List Int) : List Nat :=
  (List.range item_count).filter (fun i => selected.contains (Int.ofNat i))

/-- The keyword branch of `parse_multi_select_indices`: validate every index
of the matched keyword, then render. -/
def keywordBranch (value : String) (item_count : Nat) (idxs : List Int) :
    Option (List Nat) × Option String :=
  match keywordScan value item_count idxs with
  | some err => (none, some err)
  | none => (some (renderSelected item_count idxs), none)

/-- The token loop body of `parse_multi_select_indices`: fold the comma
tokens over the working set `selected`, stopping at the first bad token. -/
def parseTokens (item_count : Nat) (selected : List Int) :
    List String → Except String (List Int)
  | [] => .ok selected
  | token :: rest =>
    if token = "" then .error errMalformedEmpty
    else if pyContainsChar '-' token then
      match (pySplitChar '-' token).map pyStrip with
      | [p0, p1] =>
        if p0 = "" ∨ p1 = "" then .error (errMalformedRangeShape token)
        else
          match pyInt p0, pyInt p1 with
          | some start, some stop =>
            if start > stop then .error (errInvalidRange token)
            else if start < 1 ∨ stop > (item_count : Int) then
              .error (errOutOfRangeToken token item_count)
            else
              parseTokens item_count
                (selected ++ (List.range (stop + 1 - start).toNat).map
                  (fun k => start - 1 + (k : Int))) rest
          | _, _ => .error (errMalformedRangeNum token)
      | _ => .error (errMalformedRangeShape token)
    else
      match pyInt token with
      | none => .error (errMalformedNum token)
      | some num =>
        if 1 ≤ num ∧ num ≤ (item_count : Int) then
          parseTokens item_count (selected ++ [num - 1]) rest
        else .error (errOutOfRangeNum num item_count)

/-- `parse_multi_select_indices(raw_input, item_count, special_keywords)`
from `zappy/utils/ui.py`: returns `(indices, error_message)` where exactly
one side is set. -/
def parse_multi_select_indices (raw_input : String) (item_count : Nat)
    (special_keywords : List (String × List Int)) :
    Option (List Nat) × Option String :=
  if pyLower (pyStrip raw_input) = "" then (none, some errEmptyInput)
  else
    match dictLookup special_keywords (pyLower (pyStrip raw_input)) with
    | some idxs => keywordBranch (pyLower (pyStrip raw_input)) item_count idxs
    | none =>
      match parseTokens item_count []
          ((pySplitChar ',' (pyLower (pyStrip raw_input))).map pyStrip) with
      | .error e => (none, some e)
      | .ok selected => (some (renderSelected item_count selected), none)


/-! ### `zappy/utils/distro.py`: distribution detection and package commands -/

/-- The `PackageManager` enum. -/
inductive PackageManager where
  | apt
  | dnf
  | yum
  | pacman
  | apk
  | zypper
  | unknown
deriving DecidableEq

/-- `PackageManager.value`: the string value of each enum member. -/
def PackageManager.value : PackageManager → String
  | .apt => "apt"
  | .dnf => "dnf"
  | .yum => "yum"
  | .pacman => "pacman"
  | .apk => "apk"
  | .zypper => "zypper"
  | .unknown => "unknown"

/-- The `DistroInfo` dataclass. -/
structure DistroInfo where
  id : String
  name : String
  version : String
  id_like : List String
  package_manager : PackageManager
deriving DecidableEq

/-- The facts `detect_distro` reads from the host: whether
`/etc/os-release` exists, its lines, and which executables are on `PATH`
(`check_command_exists`, used for the probing fallback). -/
structure OsEnv where
  os_release_present : Bool
  os_release_lines : List String
  which : String → Bool

/-- `_detect_package_manager(distro_id, id_like)` — `which` is the
`check_command_exists` probe the source imports for its fallback. -/
def _detect_package_manager (distro_id : String) (id_like : List String)
    (which : String → Bool) : PackageManager :=
  if distro_id ∈ ["debian", "ubuntu", "linuxmint", "pop", "elementary", "zorin"] then .apt
  else if distro_id ∈ ["fedora"] then .dnf
  else if distro_id ∈ ["rhel", "centos", "rocky", "alma"] then .dnf
  else if distro_id = "arch" then .pacman
  else if distro_id = "alpine" then .apk
  else if distro_id ∈ ["opensuse", "opensuse-leap", "opensuse-tumbleweed", "sles"] then .zypper
  else if id_like.contains "debian" then .apt
  else if id_like.contains "fedora" || id_like.contains "rhel" then .dnf
  else if id_like.contains "arch" then .pacman
  else if id_like.contains "suse" then .zypper
  else if which "apt" then .apt
  else if which "dnf" then .dnf
  else if which "yum" then .yum
  else if which "pacman" then .pacman
  else if which "apk" then .apk
  else if which "zypper" then .zypper
  else .unknown

/-- The accumulator of `detect_distro`'s line loop. -/
structure OsReleaseFields where
  distro_id : String
  distro_name : String
  distro_version : String
  id_like : List String

/-- One iteration of `detect_distro`'s loop over the lines of
`/etc/os-release`; a later matching line overwrites an earlier one. -/
def parseOsReleaseLine (st : OsReleaseFields) (line : String) : OsReleaseFields :=
  let line := pyStrip line
  if pyStartswith "ID=" line then
    { st with distro_id := pyLower (pyStripQuotes (pySplitEq1 line)) }
  else if pyStartswith "NAME=" line then
    { st with distro_name := pyStripQuotes (pySplitEq1 line) }
  else if pyStartswith "VERSION_ID=" line then
    { st with distro_version := pyStripQuotes (pySplitEq1 line) }
  else if pyStartswith "ID_LIKE=" line then
    { st with id_like := pySplitWs (pyLower (pyStripQuotes (pySplitEq1 line))) }
  else st

/-- `detect_distro()`.  The second component counts how many times the
function has opened `/etc/os-release`: the source re-reads the file on
every call (there is no cache), so each call with the file present adds
one to the count. -/
def detect_distro (env : OsEnv) (reads : Nat) : DistroInfo × Nat :=
  let fields :=
    if env.os_release_present then
      env.os_release_lines.foldl parseOsReleaseLine
        { distro_id := "unknown", distro_name := "Unknown", distro_version := "", id_like := [] }
    else
      { distro_id := "unknown", distro_name := "Unknown", distro_version := "", id_like := [] }
  let package_manager := _detect_package_manager fields.distro_id fields.id_like env.which
  (⟨fields.distro_id, fields.distro_name, fields.distro_version, fields.id_like,
      package_manager⟩,
    if env.os_release_present then reads + 1 else reads)

/-- `get_package_manager()`: calls `detect_distro()` afresh on every call. -/
def get_package_manager (env : OsEnv) (reads : Nat) : PackageManager × Nat :=
  let (d, reads) := detect_distro env reads
  (d.package_manager, reads)

/-- `get_install_command(packages, package_manager)` (callers in
`packages.py` always pass the manager explicitly). -/
def get_install_command (packages : List String) (package_manager : PackageManager) :
    List String :=
  (match package_manager with
    | .apt => ["apt", "install", "-y"]
    | .dnf => ["dnf", "install", "-y"]
    | .yum => ["yum", "install", "-y"]
    | .pacman => ["pacman", "-S", "--noconfirm"]
    | .apk => ["apk", "add"]
    | .zypper => ["zypper", "install", "-y"]
    | .unknown => ["echo", "Unknown package manager"]) ++ packages

/-- `get_update_command(package_manager)`. -/
def get_update_command (package_manager : PackageManager) : List String :=
  match package_manager with
  | .apt => ["apt", "update"]
  | .dnf => ["dnf", "check-update"]
  | .yum => ["yum", "check-update"]
  | .pacman => ["pacman", "-Sy"]
  | .apk => ["apk", "update"]
  | .zypper => ["zypper", "refresh"]
  | .unknown => ["echo", "Unknown package manager"]

/-! ### `zappy/utils/command.py`: the command runner

The repository's command module (its text surviving under
`vps_toolbox/utils/command.py`) wraps `subprocess.run`.  The OS is the
abstract state `σ`; `exec` yields the exit code, captured stdout/stderr and
the successor state (subprocess exceptions surface as the sentinel exit
code `-1` inside `exec`, never as a raised exception), and `which` is
`shutil.which`, a read-only probe. -/

/-- Exit code plus captured output of one external process run. -/
structure CmdOutput where
  rc : Int
  stdout : String
  stderr : String
deriving DecidableEq

/-- The abstract operating system a run interacts with. -/
structure Runner (σ : Type) where
  exec : List String → σ → CmdOutput × σ
  which : String → σ → Bool

/-- `run_command(command)`: returns `(returncode, stdout, stderr)`. -/
def run_command {σ : Type} (r : Runner σ) (command : List String) (s : σ) :
    CmdOutput × σ :=
  r.exec command s

/-- `check_command_exists(command)`. -/
def check_command_exists {σ : Type} (r : Runner σ) (command : String) (s : σ) : Bool :=
  r.which command s

/-- `run_sudo(command)`: prefixes `sudo`, returns success = (exit code 0)
with the captured output. -/
def run_sudo {σ : Type} (r : Runner σ) (command : List String) (s : σ) :
    (Bool × String × String) × σ :=
  let (o, s) := run_command r ("sudo" :: command) s
  ((o.rc == 0, o.stdout, o.stderr), s)

/-! ### `zappy/modules/system/packages.py`: catalog, installers, planner, batch -/

/-- One `COMMON_PACKAGES` entry: description, detection command name, the
apt-specific command-name override, and per-manager package names. -/
structure PkgInfo where
  description : String
  command : String
  command_apt : Option String
  apt : Option String
  dnf : Option String
  yum : Option String
  pacman : Option String
  apk : Option String
  zypper : Option String
deriving DecidableEq

/-- One `SCRIPT_TOOLS` entry. -/
structure ScriptTool where
  label : String
  description : String
  command : String
deriving DecidableEq

/-- `TOOL_ORDER`: the catalog in menu order. -/
def TOOL_ORDER : List String :=
  ["htop", "micro", "ncdu", "tmux", "tree", "jq", "bat", "ripgrep", "fd",
   "neofetch", "flatpak", "nvm-node", "opencode", "claude-code", "rust", "go", "brew"]

/-- `COMMON_PACKAGES` as an association list in insertion order. -/
def COMMON_PACKAGES : List (String × PkgInfo) :=
  [("htop", ⟨"Interactive process viewer", "htop", none,
      some "htop", some "htop", none, some "htop", some "htop", none⟩),
   ("micro", ⟨"Modern terminal text editor", "micro", none,
      some "micro", some "micro", none, some "micro", some "micro", none⟩),
   ("ncdu", ⟨"Disk usage analyzer", "ncdu", none,
      some "ncdu", some "ncdu", none, some "ncdu", some "ncdu", none⟩),
   ("tmux", ⟨"Terminal multiplexer", "tmux", none,
      some "tmux", some "tmux", none, some "tmux", some "tmux", none⟩),
   ("tree", ⟨"Directory tree viewer", "tree", none,
      some "tree", some "tree", none, some "tree", some "tree", none⟩),
   ("jq", ⟨"JSON processor", "jq", none,
      some "jq", some "jq", none, some "jq", some "jq", none⟩),
   ("bat", ⟨"Cat with syntax highlighting", "bat", some "batcat",
      some "bat", some "bat", none, some "bat", some "bat", none⟩),
   ("ripgrep", ⟨"Fast recursive grep", "rg", none,
      some "ripgrep", some "ripgrep", none, some "ripgrep", some "ripgrep", none⟩),
   ("fd", ⟨"Fast find alternative", "fd", some "fdfind",
      some "fd-find", some "fd-find", none, some "fd", some "fd", none⟩),
   ("neofetch", ⟨"System info display", "neofetch", none,
      some "neofetch", some "neofetch", none, some "neofetch", some "neofetch", none⟩),
   ("flatpak", ⟨"Flatpak app platform", "flatpak", none,
      some "flatpak", some "flatpak", some "flatpak", some "flatpak", some "flatpak",
      some "flatpak"⟩)]

/-- `SCRIPT_TOOLS` as an association list in insertion order. -/
def SCRIPT_TOOLS : List (String × ScriptTool) :=
  [("nvm-node", ⟨"NVM + Node.js 24", "Install NVM and Node.js 24", "node"⟩),
   ("opencode", ⟨"Opencode", "Install Opencode CLI", "opencode"⟩),
   ("claude-code", ⟨"Claude Code", "Install Claude Code CLI", "claude"⟩),
   ("rust", ⟨"Rust", "Install Rust via rustup", "rustc"⟩),
   ("go", ⟨"Go", "Install Go (official tarball)", "go"⟩),
   ("brew", ⟨"Homebrew", "Install Homebrew", "brew"⟩)]

/-- `pkg_info.get(pm_key, ...)`: the per-manager package name field selected
by the package manager's string value (`"unknown"` is never a key). -/
def PkgInfo.pkgFor (p : PkgInfo) : PackageManager → Option String
  | .apt => p.apt
  | .dnf => p.dnf
  | .yum => p.yum
  | .pacman => p.pacman
  | .apk => p.apk
  | .zypper => p.zypper
  | .unknown => none

/-- The `PackagesManager` object: `__init__` stores `detect_distro()`'s
result and its package manager. -/
structure PackagesManager where
  distro : DistroInfo
  pm : PackageManager
deriving DecidableEq

/-- `PackagesManager.__init__`: one `detect_distro()` call at construction,
its result cached in the instance for the instance's lifetime. -/
def PackagesManager.ofEnv (env : OsEnv) (reads : Nat) : PackagesManager × Nat :=
  let (d, reads) := detect_distro env reads
  ({ distro := d, pm := d.package_manager }, reads)

/-- `_all_tools()`. -/
def PackagesManager._all_tools (_ : PackagesManager) : List String :=
  TOOL_ORDER

/-- `_is_script_tool(tool)`: key membership in `SCRIPT_TOOLS`. -/
def PackagesManager._is_script_tool (_ : PackagesManager) (tool : String) : Bool :=
  (SCRIPT_TOOLS.find? (fun p => p.1 == tool)).isSome

/-- `_get_package_name(tool)`. -/
def PackagesManager._get_package_name (m : PackagesManager) (tool : String) : String :=
  if m._is_script_tool tool then
    match SCRIPT_TOOLS.find? (fun p => p.1 == tool) with
    | some (_, st) => st.command
    | none => tool
  else
    match COMMON_PACKAGES.find? (fun p => p.1 == tool) with
    | some (_, info) => (info.pkgFor m.pm).getD tool
    | none => tool

/-- `_get_command_name(tool)`: the apt override applies when it is present
and truthy (a nonempty string). -/
def PackagesManager._get_command_name (m : PackagesManager) (tool : String) : String :=
  match COMMON_PACKAGES.find? (fun p => p.1 == tool) with
  | some (_, info) =>
    if m.pm = PackageManager.apt then
      match info.command_apt with
      | some cmd => if cmd ≠ "" then cmd else info.command
      | none => info.command
    else info.command
  | none => tool

/-- The argv of the `nvm-node` installed-state marker check. -/
def nvmMarkerArgv : List String :=
  ["bash", "-lc", "test -s \"$HOME/.nvm/nvm.sh\""]

/-- `_is_installed(tool)`. -/
def PackagesManager._is_installed {σ : Type} (r : Runner σ) (m : PackagesManager)
    (tool : String) (s : σ) : Bool × σ :=
  if tool = "nvm-node" then
    let (o, s) := run_command r nvmMarkerArgv s
    if o.rc ≠ 0 then (false, s)
    else (check_command_exists r "node" s, s)
  else
    (check_command_exists r (m._get_command_name tool) s, s)

/-- The shell pipeline `_install_nvm_node` runs. -/
def nvmInstallScript : String :=
  "PROFILE=/dev/null curl -o- https://raw.githubusercontent.com/nvm-sh/nvm/v0.40.4/install.sh | bash && bash -lc 'export NVM_DIR=\"$HOME/.nvm\"; [ -s \"$NVM_DIR/nvm.sh\" ] && . \"$NVM_DIR/nvm.sh\"; nvm install 24; nvm alias default 24'"

/-- `_install_nvm_node()`: a nonzero installer exit returns failure at once;
a zero exit defers to the post-install detection check. -/
def PackagesManager._install_nvm_node {σ : Type} (r : Runner σ) (m : PackagesManager)
    (s : σ) : Bool × σ :=
  let (o, s) := run_command r ["bash", "-lc", nvmInstallScript] s
  if o.rc ≠ 0 then (false, s)
  else m._is_installed r "nvm-node" s

/-- `_install_opencode()`. -/
def PackagesManager._install_opencode {σ : Type} (r : Runner σ) (m : PackagesManager)
    (s : σ) : Bool × σ :=
  let (o, s) := run_command r ["bash", "-lc", "curl -fsSL https://opencode.ai/install | bash"] s
  if o.rc ≠ 0 then (false, s)
  else m._is_installed r "opencode" s

/-- `_install_claude_code()`. -/
def PackagesManager._install_claude_code {σ : Type} (r : Runner σ) (m : PackagesManager)
    (s : σ) : Bool × σ :=
  let (o, s) :=
    run_command r ["bash", "-lc", "curl -fsSL https://claude.ai/install.sh | bash"] s
  if o.rc ≠ 0 then (false, s)
  else m._is_installed r "claude-code" s

/-- `_install_rust()`. -/
def PackagesManager._install_rust {σ : Type} (r : Runner σ) (m : PackagesManager)
    (s : σ) : Bool × σ :=
  let (o, s) :=
    run_command r
      ["bash", "-lc",
       "curl --proto '=https' --tlsv1.2 -sSf https://sh.rustup.rs | sh -s -- -y"] s
  if o.rc ≠ 0 then (false, s)
  else m._is_installed r "rust" s

/-- The `uname -m` to Go release architecture table. -/
def goArchMap (arch : String) : Option String :=
  if arch = "x86_64" then some "amd64"
  else if arch = "aarch64" then some "arm64"
  else if arch = "arm64" then some "arm64"
  else none

/-- The version string `_install_go` extracts from the `go.dev/VERSION`
response body: first line, stripped; empty when the body is empty. -/
def goVersionOf (out : String) : String :=
  if out ≠ "" then pyStrip ((pySplitlines out).headD "") else ""

/-- The tarball path `f"/tmp/{version}.linux-{go_arch}.tar.gz"`. -/
def goTarball (version go_arch : String) : String :=
  "/tmp/" ++ version ++ ".linux-" ++ go_arch ++ ".tar.gz"

/-- The download URL `f"https://go.dev/dl/{version}.linux-{go_arch}.tar.gz"`. -/
def goUrl (version go_arch : String) : String :=
  "https://go.dev/dl/" ++ version ++ ".linux-" ++ go_arch ++ ".tar.gz"

/-- `_install_go()`. -/
def PackagesManager._install_go {σ : Type} (r : Runner σ) (m : PackagesManager)
    (s : σ) : Bool × σ :=
  let (o1, s) := run_command r ["uname", "-m"] s
  if o1.rc ≠ 0 then (false, s)
  else
    match goArchMap (pyStrip o1.stdout) with
    | none => (false, s)
    | some go_arch =>
      let (o2, s) := run_command r ["bash", "-lc", "curl -fsSL 'https://go.dev/VERSION?m=text'"] s
      if o2.rc ≠ 0 then (false, s)
      else
        if ¬ pyStartswith "go" (goVersionOf o2.stdout) then (false, s)
        else
          let (o3, s) := run_command r
            ["curl", "-fsSL", "-o", goTarball (goVersionOf o2.stdout) go_arch,
              goUrl (goVersionOf o2.stdout) go_arch] s
          if o3.rc ≠ 0 then (false, s)
          else
            let ((ok4, _, _), s) := run_sudo r ["rm", "-rf", "/usr/local/go"] s
            if ¬ ok4 then (false, s)
            else
              let ((ok5, _, _), s) := run_sudo r
                ["tar", "-C", "/usr/local", "-xzf",
                  goTarball (goVersionOf o2.stdout) go_arch] s
              let (_, s) := run_command r
                ["rm", "-f", goTarball (goVersionOf o2.stdout) go_arch] s
              if ¬ ok5 then (false, s)
              else
                let (o7, s) := run_command r ["test", "-x", "/usr/local/go/bin/go"] s
                if o7.rc ≠ 0 then (false, s)
                else
                  let (inst, s) := m._is_installed r "go" s
                  (inst || o7.rc == 0, s)

/-- The Homebrew installer pipeline. -/
def brewInstallScript : String :=
  "NONINTERACTIVE=1 /bin/bash -c \"$(curl -fsSL https://raw.githubusercontent.com/Homebrew/install/HEAD/install.sh)\""

/-- `_install_brew()`. -/
def PackagesManager._install_brew {σ : Type} (r : Runner σ) (m : PackagesManager)
    (s : σ) : Bool × σ :=
  let (o, s) := run_command r ["bash", "-lc", brewInstallScript] s
  if o.rc ≠ 0 then (false, s)
  else m._is_installed r "brew" s

/-- `_install_script_tool(tool)`: the installer dispatch table; an
unconfigured tool fails. -/
def PackagesManager._install_script_tool {σ : Type} (r : Runner σ) (m : PackagesManager)
    (tool : String) (s : σ) : Bool × σ :=
  if tool = "nvm-node" then m._install_nvm_node r s
  else if tool = "opencode" then m._install_opencode r s
  else if tool = "claude-code" then m._install_claude_code r s
  else if tool = "rust" then m._install_rust r s
  else if tool = "go" then m._install_go r s
  else if tool = "brew" then m._install_brew r s
  else (false, s)

/-- `install_package(tool)`: already-installed pre-check, then the script
dispatch for script tools, else the package-manager install command via
`run_sudo`, whose success flag is returned as the classification. -/
def PackagesManager.install_package {σ : Type} (r : Runner σ) (m : PackagesManager)
    (tool : String) (s : σ) : Bool × σ :=
  let (inst, s) := m._is_installed r tool s
  if inst then (true, s)
  else if m._is_script_tool tool then m._install_script_tool r tool s
  else
    let package := m._get_package_name tool
    let install_cmd := get_install_command [package] m.pm
    let ((success, _, _), s) := run_sudo r install_cmd s
    (success, s)

/-- The per-tool loop of `_execute_install_batch`: one `install_package`
call per list element, in order, recording each classification. -/
def PackagesManager.installLoop {σ : Type} (r : Runner σ) (m : PackagesManager) :
    List String → σ → List (String × Bool) × σ
  | [], s => ([], s)
  | tool :: rest, s =>
    let (ok, s) := m.install_package r tool s
    let (res, s) := m.installLoop r rest s
    ((tool, ok) :: res, s)

/-- The state from which `_execute_install_batch`'s per-tool loop starts:
when `pm_tools` (the package-manager-installed subset) is nonempty the
batch first runs the platform's package-index update command once via
`run_sudo`, whatever its exit code; otherwise the state is untouched. -/
def PackagesManager.batchStartState {σ : Type} (r : Runner σ) (m : PackagesManager)
    (tools : List String) (s : σ) : σ :=
  if (tools.filter (fun t => !m._is_script_tool t)).isEmpty then s
  else (run_sudo r (get_update_command m.pm) s).2

/-- `_execute_install_batch(tools)`: optional one-time package-index update
when any tool is package-manager-installed, then the per-tool loop; returns
whether the `failed_tools` list is empty. -/
def PackagesManager._execute_install_batch {σ : Type} (r : Runner σ) (m : PackagesManager)
    (tools : List String) (s : σ) : Bool × σ :=
  (((m.installLoop r tools (m.batchStartState r tools s)).1.filter
      (fun p => !p.2)).map Prod.fst |>.isEmpty,
    (m.installLoop r tools (m.batchStartState r tools s)).2)

/-- The classifications `_execute_install_batch` computes and prints: the
`success_tools` and `failed_tools` lists, in attempt order. -/
def PackagesManager.batchResults {σ : Type} (r : Runner σ) (m : PackagesManager)
    (tools : List String) (s : σ) : List String × List String :=
  (((m.installLoop r tools (m.batchStartState r tools s)).1.filter
      (fun p => p.2)).map Prod.fst,
    ((m.installLoop r tools (m.batchStartState r tools s)).1.filter
      (fun p => !p.2)).map Prod.fst)

/-- `_build_install_plan(selected_tools)`, with the installed-state check
abstracted as the Boolean snapshot `isInstalled` each `self._is_installed`
call returns: `already_installed` keeps the tools where it is true, and
`install_now` keeps the tools not in `already_installed`. -/
def PackagesManager._build_install_plan (isInstalled : String → Bool)
    (selected_tools : List String) : List String × List String :=
  let already_installed := selected_tools.filter (fun tool => isInstalled tool)
  let install_now := selected_tools.filter (fun tool => !already_installed.contains tool)
  (already_installed, install_now)

/-- `install_menu` from the point the multi-select returns: `choices` is
`multi_select_from_list`'s result (`none` for back/cancel), `proceed` the
confirmation answer.  An empty selection warns and returns `False` without
planning or installing anything. -/
def PackagesManager.install_menu_from_choices {σ : Type} (r : Runner σ)
    (m : PackagesManager) (proceed : Bool) (choices : Option (List Nat)) (s : σ) :
    Bool × σ :=
  match choices with
  | none => (false, s)
  | some choices =>
    if choices.isEmpty then (false, s)
    else
      let selected_tools := choices.map (fun i => TOOL_ORDER.getD i "")
      let (flags, s) :=
        selected_tools.foldl
          (fun (acc : List (String × Bool) × σ) tool =>
            let (inst, s) := m._is_installed r tool acc.2
            (acc.1 ++ [(tool, inst)], s))
          ([], s)
      let already_installed := (flags.filter (fun p => p.2)).map Prod.fst
      let install_now := selected_tools.filter (fun t => !already_installed.contains t)
      if install_now.isEmpty then (true, s)
      else if ¬ proceed then (false, s)
      else m._execute_install_batch r install_now s

/-- The first three characters of a parse-error message: the discriminating
head of its failure mode. -/
def msgTag (s : String) : List Char :=
  s.data.take 3

/-! ### Concrete environments used as witnesses and counterexamples -/

/-- A stateless OS in which every command exits with code `rc` and no
executable is on `PATH`. -/
def constRunner (rc : Int) : Runner Unit where
  exec := fun _ s => ({ rc := rc, stdout := "", stderr := "" }, s)
  which := fun _ _ => false

/-- A manager on an apt platform. -/
def aptMgr : PackagesManager :=
  { distro := ⟨"ubuntu", "Ubuntu", "24.04", ["debian"], .apt⟩, pm := .apt }

/-- A manager on an unidentified platform. -/
def unknownMgr : PackagesManager :=
  { distro := ⟨"unknown", "Unknown", "", [], .unknown⟩, pm := .unknown }

/-- An OS whose state records every argv executed; every command exits 0
and nothing is on `PATH`. -/
def echoRunner : Runner (List (List String)) where
  exec := fun argv log => ({ rc := 0, stdout := "", stderr := "" }, log ++ [argv])
  which := fun _ _ => false

/-- An OS with one Boolean fact: whether nvm/node landed on disk.  The
nvm installer exits nonzero yet flips the fact to true (a loud partial
success); the marker test and `PATH` lookup read the fact. -/
def flagRunner : Runner Bool where
  exec := fun argv s =>
    if argv = ["bash", "-lc", nvmInstallScript] then
      ({ rc := 1, stdout := "", stderr := "" }, true)
    else if argv = nvmMarkerArgv then
      ({ rc := if s then 0 else 1, stdout := "", stderr := "" }, s)
    else ({ rc := 0, stdout := "", stderr := "" }, s)
  which := fun _ s => s

/-- A stateless OS in which only `sudo apt install -y micro` fails. -/
def pickyRunner : Runner Unit where
  exec := fun argv s =>
    ({ rc := if argv = ["sudo", "apt", "install", "-y", "micro"] then 1 else 0,
       stdout := "", stderr := "" }, s)
  which := fun _ _ => false

/-- An Ubuntu host environment for distro detection. -/
def ubuntuEnv : OsEnv :=
  { os_release_present := true, os_release_lines := ["ID=ubuntu"], which := fun _ => false }

/-- The argv `_execute_install_batch` passes to `run_sudo` for the
package-index update. -/
def updateArgv (pm : PackageManager) : List String :=
  "sudo" :: get_update_command pm

/-- Instrument an OS so that its state also records the argv of every
executed command, in order. -/
def traced {σ : Type} (r : Runner σ) : Runner (σ × List (List String)) where
  exec := fun argv s =>
    let (o, s1) := r.exec argv s.1
    (o, (s1, s.2 ++ [argv]))
  which := fun c s => r.which c s.1

/-- A three-tool pending list whose middle tool fails under
`pickyRunner`. -/
def tools3 : List String :=
  ["htop", "micro", "tree"]

/-- The log grew only by commands other than the package-index update. -/
def LogExt (pm : PackageManager) (log log' : List (List String)) : Prop :=
  ∃ d, log' = log ++ d ∧ updateArgv pm ∉ d

/-! ### Concrete evaluations of the embedded functions -/

example : parse_multi_select_indices "1,1,1-3" 10 [] = (some [0, 1, 2], none) := by decide

example : parse_multi_select_indices "4-7" 10 [] = (some [3, 4, 5, 6], none) := by decide

example : parse_multi_select_indices "7-4" 10 [] = (none, some (errInvalidRange "7-4")) := by
  decide

example : parse_multi_select_indices "  " 10 [] = (none, some errEmptyInput) := by decide

example : parse_multi_select_indices "1,,3" 10 [] = (none, some errMalformedEmpty) := by decide

example : parse_multi_select_indices "0" 10 [] = (none, some (errOutOfRangeNum 0 10)) := by
  decide

example :
    parse_multi_select_indices "ALL " 3 [("all", [0, 1, 2])] = (some [0, 1, 2], none) := by
  decide

example :
    (detect_distro
        { os_release_present := true, os_release_lines := ["ID=ubuntu", "NAME=\"Ubuntu\""],
          which := fun _ => false } 0).1.package_manager = PackageManager.apt := by
  decide

/-! ### Parser lemmas -/

/-- Every successful parse renders the working set as a filtered initial
segment of the menu indices. -/
theorem parse_shape (raw : String) (item_count : Nat) (kws : List (String × List Int)) :
    (∃ p, parse_multi_select_indices raw item_count kws =
        (some ((List.range item_count).filter p), none)) ∨
    (∃ e, parse_multi_select_indices raw item_count kws = (none, some e)) := by
  unfold parse_multi_select_indices keywordBranch
  split
  · exact Or.inr ⟨_, rfl⟩
  · split
    · rename_i idxs hk
      split
      · exact Or.inr ⟨_, rfl⟩
      · exact Or.inl ⟨fun i => idxs.contains (Int.ofNat i), rfl⟩
    · split
      · exact Or.inr ⟨_, rfl⟩
      · rename_i sel hok
        exact Or.inl ⟨fun i => sel.contains (Int.ofNat i), rfl⟩

/-- A keyword whose indices all lie in `[0, item_count)` passes the scan. -/
theorem keywordScan_eq_none (value : String) (n : Nat) (idxs : List Int)
    (h : ∀ i ∈ idxs, 0 ≤ i ∧ i < (n : Int)) : keywordScan value n idxs = none := by
  induction idxs with
  | nil => rfl
  | cons a l ih =>
    unfold keywordScan
    rw [if_pos (h a (List.mem_cons_self a l))]
    exact ih fun i hi => h i (List.mem_cons_of_mem a hi)

/-- C3: every accepted selection parses to a strictly ascending (hence
deduplicated) index list; `"1,1,1-3"` against 10 items yields `[0, 1, 2]`;
and a matched keyword with in-range indices yields the canonical
ascending deduplicated subset of the menu determined by membership in the
keyword's index list. -/
theorem claim_C3 :
    (∀ (raw : String) (item_count : Nat) (kws : List (String × List Int))
        (l : List Nat) (e : Option String),
        parse_multi_select_indices raw item_count kws = (some l, e) →
        l.Pairwise (· < ·) ∧ l.Nodup) ∧
    parse_multi_select_indices "1,1,1-3" 10 [] = (some [0, 1, 2], none) ∧
    (∀ (raw : String) (item_count : Nat) (kws : List (String × List Int))
        (idxs : List Int),
        pyLower (pyStrip raw) ≠ "" →
        dictLookup kws (pyLower (pyStrip raw)) = some idxs →
        (∀ i ∈ idxs, 0 ≤ i ∧ i < (item_count : Int)) →
        parse_multi_select_indices raw item_count kws =
          (some ((List.range item_count).filter
            (fun i => idxs.contains (Int.ofNat i))), none) ∧
        (∀ j : Nat,
          j ∈ (List.range item_count).filter (fun i => idxs.contains (Int.ofNat i)) ↔
            (j < item_count ∧ idxs.contains (Int.ofNat j) = true))) := by
  refine ⟨?_, by decide, ?_⟩
  · intro raw item_count kws l e h
    rcases parse_shape raw item_count kws with ⟨p, hp⟩ | ⟨e', he⟩
    · rw [hp] at h
      obtain ⟨rfl, -⟩ : (List.range item_count).filter p = l ∧ none = e := by
        simpa using h
      refine ⟨(List.pairwise_lt_range item_count).filter p, ?_⟩
      exact ((List.pairwise_lt_range item_count).filter p).imp Nat.ne_of_lt
    · rw [he] at h
      simp at h
  · intro raw item_count kws idxs hne hk hvalid
    have hscan := keywordScan_eq_none (pyLower (pyStrip raw)) item_count idxs hvalid
    constructor
    · simp only [parse_multi_select_indices, keywordBranch, renderSelected, if_neg hne,
        hk, hscan]
    · intro j
      simp [List.mem_filter, List.mem_range]

/-- C9: the Selector Parser is total and returns exactly one of an index
list or an error message; every returned index is below `item_count` and
the list is strictly increasing. -/
theorem claim_C9 :
    ∀ (raw : String) (item_count : Nat) (kws : List (String × List Int)),
      ((∃ l, parse_multi_select_indices raw item_count kws = (some l, none)) ∨
        (∃ e, parse_multi_select_indices raw item_count kws = (none, some e))) ∧
      (∀ (l : List Nat) (e : Option String),
        parse_multi_select_indices raw item_count kws = (some l, e) →
        (∀ i ∈ l, i < item_count) ∧ l.Pairwise (· < ·)) := by
  intro raw item_count kws
  constructor
  · rcases parse_shape raw item_count kws with ⟨p, hp⟩ | ⟨e, he⟩
    · exact Or.inl ⟨_, hp⟩
    · exact Or.inr ⟨_, he⟩
  · intro l e h
    rcases parse_shape raw item_count kws with ⟨p, hp⟩ | ⟨e', he⟩
    · rw [hp] at h
      obtain ⟨rfl, -⟩ : (List.range item_count).filter p = l ∧ none = e := by
        simpa using h
      refine ⟨?_, (List.pairwise_lt_range item_count).filter p⟩
      intro i hi
      exact List.mem_range.mp (List.mem_of_mem_filter hi)
    · rw [he] at h
      simp at h

/-- Witness for C3 at concrete inputs. -/
theorem claim_C3_witness :
    (List.Pairwise (· < ·) [0, 2] ∧ List.Nodup [0, 2]) ∧
    parse_multi_select_indices "M " 4 [("m", [2, 0])] =
      (some ((List.range 4).filter
        (fun i => [(2 : Int), 0].contains (Int.ofNat i))), none) :=
  ⟨claim_C3.1 "3,1" 5 [] [0, 2] none (by decide),
    (claim_C3.2.2 "M " 4 [("m", [2, 0])] [2, 0] (by decide) (by decide) (by decide)).1⟩

/-- Witness for C9 at a concrete input. -/
theorem claim_C9_witness :
    (∀ i ∈ [1, 2], i < 5) ∧ List.Pairwise (· < ·) [1, 2] :=
  (claim_C9 "2-3" 5 []).2 [1, 2] none (by decide)

/-- C4: the parser's failure modes in the source's priority order: empty
or whitespace-only input fails first with the empty-input message whatever
the keyword table holds; a keyword hit is handled by the keyword branch
before any token parsing; in the token loop an empty token, a bad range
shape, or a non-numeric part fails as malformed-token, a descending range
as invalid-range (checked before bounds), and an out-of-bounds value or
endpoint as out-of-range; each payload-carrying message embeds the
offending token or value and the bounded messages embed the range
`1-item_count`; and the five failure modes are distinguishable by their
three-character message heads.  (The two payload-free messages, empty
input and empty token, describe their empty offender in words.) -/
theorem claim_C4 :
    (∀ (raw : String) (item_count : Nat) (kws : List (String × List Int)),
      pyLower (pyStrip raw) = "" →
      parse_multi_select_indices raw item_count kws = (none, some errEmptyInput)) ∧
    (∀ (raw : String) (item_count : Nat) (kws : List (String × List Int))
        (idxs : List Int),
      pyLower (pyStrip raw) ≠ "" →
      dictLookup kws (pyLower (pyStrip raw)) = some idxs →
      parse_multi_select_indices raw item_count kws =
        keywordBranch (pyLower (pyStrip raw)) item_count idxs) ∧
    (∀ (item_count : Nat) (sel : List Int) (rest : List String),
      parseTokens item_count sel ("" :: rest) = .error errMalformedEmpty ∧
      (∀ token, token ≠ "" → pyContainsChar '-' token = true →
        (((pySplitChar '-' token).map pyStrip).length ≠ 2 →
          parseTokens item_count sel (token :: rest) =
            .error (errMalformedRangeShape token)) ∧
        (∀ p0 p1, (pySplitChar '-' token).map pyStrip = [p0, p1] →
          ((p0 = "" ∨ p1 = "") →
            parseTokens item_count sel (token :: rest) =
              .error (errMalformedRangeShape token)) ∧
          (¬ (p0 = "" ∨ p1 = "") → (pyInt p0 = none ∨ pyInt p1 = none) →
            parseTokens item_count sel (token :: rest) =
              .error (errMalformedRangeNum token)) ∧
          (∀ a b, ¬ (p0 = "" ∨ p1 = "") → pyInt p0 = some a → pyInt p1 = some b →
            (a > b →
              parseTokens item_count sel (token :: rest) =
                .error (errInvalidRange token)) ∧
            (¬ a > b → (a < 1 ∨ b > (item_count : Int)) →
              parseTokens item_count sel (token :: rest) =
                .error (errOutOfRangeToken token item_count))))) ∧
      (∀ token, token ≠ "" → pyContainsChar '-' token = false →
        (pyInt token = none →
          parseTokens item_count sel (token :: rest) =
            .error (errMalformedNum token)) ∧
        (∀ num, pyInt token = some num → ¬ (1 ≤ num ∧ num ≤ (item_count : Int)) →
          parseTokens item_count sel (token :: rest) =
            .error (errOutOfRangeNum num item_count)))) ∧
    (∀ (token value : String) (item_count : Nat) (num idx : Int),
      (∃ x y, errMalformedRangeShape token = x ++ token ++ y) ∧
      (∃ x y, errMalformedRangeNum token = x ++ token ++ y) ∧
      (∃ x y, errMalformedNum token = x ++ token ++ y) ∧
      (∃ x y, errInvalidRange token = x ++ token ++ y) ∧
      (∃ x y, errOutOfRangeToken token item_count = x ++ token ++ y) ∧
      (∃ x y, errOutOfRangeToken token item_count =
        x ++ ("1-" ++ toString item_count) ++ y) ∧
      (∃ x y, errOutOfRangeNum num item_count = x ++ toString num ++ y) ∧
      (∃ x y, errOutOfRangeNum num item_count =
        x ++ ("1-" ++ toString item_count) ++ y) ∧
      (∃ x y, errKeywordOutOfRange value item_count idx = x ++ value ++ y) ∧
      (∃ x y, errKeywordOutOfRange value item_count idx =
        x ++ ("1-" ++ toString item_count) ++ y)) ∧
    (∀ (token value : String) (item_count : Nat) (num idx : Int),
      msgTag errEmptyInput = "Inp".data ∧
      msgTag (errKeywordOutOfRange value item_count idx) = "Key".data ∧
      msgTag errMalformedEmpty = "Mal".data ∧
      msgTag (errMalformedRangeShape token) = "Mal".data ∧
      msgTag (errMalformedRangeNum token) = "Mal".data ∧
      msgTag (errMalformedNum token) = "Mal".data ∧
      msgTag (errInvalidRange token) = "Inv".data ∧
      msgTag (errOutOfRangeToken token item_count) = "Out".data ∧
      msgTag (errOutOfRangeNum num item_count) = "Out".data ∧
      List.Pairwise (· ≠ ·) ["Inp".data, "Key".data, "Mal".data, "Inv".data, "Out".data]) := by
  refine ⟨?_, ?_, ?_, ?_, ?_⟩
  · intro raw item_count kws h
    unfold parse_multi_select_indices
    rw [if_pos h]
  · intro raw item_count kws idxs hne hk
    simp only [parse_multi_select_indices, if_neg hne, hk]
  · intro item_count sel rest
    refine ⟨rfl, ?_, ?_⟩
    · intro token htok hdash
      have hstep : parseTokens item_count sel (token :: rest) =
          match (pySplitChar '-' token).map pyStrip with
          | [p0, p1] =>
            if p0 = "" ∨ p1 = "" then .error (errMalformedRangeShape token)
            else
              match pyInt p0, pyInt p1 with
              | some start, some stop =>
                if start > stop then .error (errInvalidRange token)
                else if start < 1 ∨ stop > (item_count : Int) then
                  .error (errOutOfRangeToken token item_count)
                else
                  parseTokens item_count
                    (sel ++ (List.range (stop + 1 - start).toNat).map
                      (fun k => start - 1 + (k : Int))) rest
              | _, _ => .error (errMalformedRangeNum token)
          | _ => .error (errMalformedRangeShape token) := by
        rw [parseTokens, if_neg htok, if_pos hdash]
      refine ⟨?_, ?_⟩
      · intro hlen
        rw [hstep]
        rcases hp : (pySplitChar '-' token).map pyStrip with - | ⟨p0, - | ⟨p1, - | -⟩⟩ <;>
          first
            | rfl
            | (rw [hp] at hlen; simp at hlen)
      · intro p0 p1 hp
        rw [hstep]
        simp only [hp]
        refine ⟨?_, ?_, ?_⟩
        · intro hor
          rw [if_pos hor]
        · intro hor hnone
          rw [if_neg hor]
          rcases hnone with h0 | h1
          · simp only [h0]
          · cases h0 : pyInt p0 <;> simp only [h1]
        · intro a b hor h0 h1
          rw [if_neg hor]
          simp only [h0, h1]
          refine ⟨?_, ?_⟩
          · intro hab
            rw [if_pos hab]
          · intro hab hbound
            rw [if_neg hab, if_pos hbound]
    · intro token htok hdash
      have hstep : parseTokens item_count sel (token :: rest) =
          match pyInt token with
          | none => .error (errMalformedNum token)
          | some num =>
            if 1 ≤ num ∧ num ≤ (item_count : Int) then
              parseTokens item_count (sel ++ [num - 1]) rest
            else .error (errOutOfRangeNum num item_count) := by
        rw [parseTokens, if_neg htok]
        simp only [hdash, Bool.false_eq_true, if_false]
      refine ⟨?_, ?_⟩
      · intro hnone
        rw [hstep]
        simp only [hnone]
      · intro num hnum hout
        rw [hstep]
        simp only [hnum]
        rw [if_neg hout]
  · intro token value item_count num idx
    refine ⟨⟨_, _, rfl⟩, ⟨_, _, rfl⟩, ⟨_, _, rfl⟩, ⟨_, _, rfl⟩,
      ⟨"Out-of-range value in '", "'. Valid range is 1-" ++ toString item_count ++ ".", by
        simp [errOutOfRangeToken, String.append_assoc]⟩,
      ⟨"Out-of-range value in '" ++ token ++ "'. Valid range is ", ".", by
        unfold errOutOfRangeToken
        simp only [String.append_assoc]
        rw [← String.append_assoc "'. Valid range is " "1-"]
        simp⟩,
      ⟨"Out-of-range value '", "'. Valid range is 1-" ++ toString item_count ++ ".", by
        simp [errOutOfRangeNum, String.append_assoc]⟩,
      ⟨"Out-of-range value '" ++ toString num ++ "'. Valid range is ", ".", by
        unfold errOutOfRangeNum
        simp only [String.append_assoc]
        rw [← String.append_assoc "'. Valid range is " "1-"]
        simp⟩,
      ⟨"Keyword '", "' contains out-of-range value: " ++ toString (idx + 1) ++
          ". Valid range is 1-" ++ toString item_count ++ ".", by
        simp [errKeywordOutOfRange, String.append_assoc]⟩,
      ⟨"Keyword '" ++ value ++ "' contains out-of-range value: " ++ toString (idx + 1) ++
          ". Valid range is ", ".", by
        unfold errKeywordOutOfRange
        simp only [String.append_assoc]
        rw [← String.append_assoc ". Valid range is " "1-"]
        simp⟩⟩
  · intro token value item_count num idx
    have hKey : (3 : Nat) ≤ ("Keyword '" : String).data.length := by decide
    have hMal : (3 : Nat) ≤ ("Malformed token '" : String).data.length := by decide
    have hInv : (3 : Nat) ≤ ("Invalid range '" : String).data.length := by decide
    have hOut1 : (3 : Nat) ≤ ("Out-of-range value in '" : String).data.length := by decide
    have hOut2 : (3 : Nat) ≤ ("Out-of-range value '" : String).data.length := by decide
    refine ⟨by decide,
      by simp [msgTag, errKeywordOutOfRange, String.data_append,
        List.take_append_of_le_length, hKey],
      by decide,
      by simp [msgTag, errMalformedRangeShape, String.data_append,
        List.take_append_of_le_length, hMal],
      by simp [msgTag, errMalformedRangeNum, String.data_append,
        List.take_append_of_le_length, hMal],
      by simp [msgTag, errMalformedNum, String.data_append,
        List.take_append_of_le_length, hMal],
      by simp [msgTag, errInvalidRange, String.data_append,
        List.take_append_of_le_length, hInv],
      by simp [msgTag, errOutOfRangeToken, String.data_append,
        List.take_append_of_le_length, hOut1],
      by simp [msgTag, errOutOfRangeNum, String.data_append,
        List.take_append_of_le_length, hOut2],
      by decide⟩


/-- Witness for C4 at concrete inputs: whitespace-only input, and a
descending range token. -/
theorem claim_C4_witness :
    parse_multi_select_indices " " 5 [] = (none, some errEmptyInput) ∧
    parseTokens 5 [] ["7-4"] = .error (errInvalidRange "7-4") :=
  ⟨claim_C4.1 " " 5 [] (by decide),
    ((((claim_C4.2.2.1 5 [] []).2.1 "7-4" (by decide) (by decide)).2 "7" "4"
        (by decide)).2.2 7 4 (by decide) (by decide) (by decide)).1 (by decide)⟩

/-- C10: a keyword bound to an empty index list parses to the empty
selection with no error (only blank input is the empty-input failure), and
the install menu handed an empty selection reports nothing selected:
it returns `False` and touches nothing. -/
theorem claim_C10 :
    (∀ (raw : String) (item_count : Nat) (kws : List (String × List Int)),
      pyLower (pyStrip raw) ≠ "" →
      dictLookup kws (pyLower (pyStrip raw)) = some [] →
      parse_multi_select_indices raw item_count kws = (some [], none)) ∧
    (∀ (σ : Type) (r : Runner σ) (m : PackagesManager) (proceed : Bool) (s : σ),
      m.install_menu_from_choices r proceed (some []) s = (false, s)) := by
  constructor
  · intro raw item_count kws hne hk
    simp only [parse_multi_select_indices, if_neg hne, hk, keywordBranch, keywordScan,
      renderSelected]
    simp [List.filter_eq_nil_iff]
  · intro σ r m proceed s
    rfl

/-- Witness for C10 at concrete inputs. -/
theorem claim_C10_witness :
    parse_multi_select_indices "Missing" 17 [("missing", [])] = (some [], none) ∧
    PackagesManager.install_menu_from_choices echoRunner unknownMgr true (some []) [] =
      (false, []) :=
  ⟨claim_C10.1 "Missing" 17 [("missing", [])] (by decide) (by decide),
    claim_C10.2 (List (List String)) echoRunner unknownMgr true []⟩

/-- C6: the Install Planner with a fixed installed-state snapshot keeps
exactly the installed tools (in selection order) as `already_installed`,
exactly the others (in selection order) as `install_now`; the two lists
are disjoint and partition the selection; and the planner is a pure
function, so a second run with the same snapshot is identical. -/
theorem claim_C6 :
    ∀ (isInstalled : String → Bool) (sel : List String),
      (PackagesManager._build_install_plan isInstalled sel).1 =
        sel.filter (fun t => isInstalled t) ∧
      (PackagesManager._build_install_plan isInstalled sel).2 =
        sel.filter (fun t => !isInstalled t) ∧
      List.Disjoint (PackagesManager._build_install_plan isInstalled sel).1
        (PackagesManager._build_install_plan isInstalled sel).2 ∧
      (∀ t, t ∈ sel ↔
        (t ∈ (PackagesManager._build_install_plan isInstalled sel).1 ∨
          t ∈ (PackagesManager._build_install_plan isInstalled sel).2)) ∧
      PackagesManager._build_install_plan isInstalled sel =
        PackagesManager._build_install_plan isInstalled sel := by
  intro p sel
  have h1 : (PackagesManager._build_install_plan p sel).1 = sel.filter (fun t => p t) := rfl
  have h2 : (PackagesManager._build_install_plan p sel).2 =
      sel.filter (fun t => !p t) := by
    show sel.filter (fun t => !(sel.filter (fun u => p u)).contains t) =
      sel.filter (fun t => !p t)
    apply List.filter_congr
    intro t ht
    cases hp : p t <;> simp [List.mem_filter, ht, hp]
  refine ⟨h1, h2, ?_, ?_, rfl⟩
  · intro t ht1 ht2
    rw [h1] at ht1
    rw [h2] at ht2
    simp only [List.mem_filter] at ht1 ht2
    rw [ht1.2] at ht2
    simp at ht2
  · intro t
    rw [h1, h2]
    simp only [List.mem_filter]
    by_cases hp : p t <;> simp [hp]

/-! ### Batch-installer lemmas -/

/-- The per-tool loop visits exactly the given tools, in order, one
`install_package` call per element. -/
theorem installLoop_map_fst {σ : Type} (r : Runner σ) (m : PackagesManager)
    (tools : List String) (s : σ) :
    (m.installLoop r tools s).1.map Prod.fst = tools := by
  induction tools generalizing s with
  | nil => rfl
  | cons t ts ih =>
    cases h1 : m.install_package r t s with
    | mk ok s1 =>
      cases h2 : m.installLoop r ts s1 with
      | mk res s2 =>
        have hres : res.map Prod.fst = ts := by
          have := ih s1
          rw [h2] at this
          exact this
        simp only [PackagesManager.installLoop, h1, h2, List.map_cons, hres]

/-- Splitting a run of classifications by outcome yields disjoint name
lists when the names are distinct. -/
theorem filterSplit_disjoint {α : Type} (l : List (α × Bool))
    (h : (l.map Prod.fst).Nodup) :
    List.Disjoint ((l.filter (fun p => p.2)).map Prod.fst)
      ((l.filter (fun p => !p.2)).map Prod.fst) := by
  intro x hx1 hx2
  simp only [List.mem_map, List.mem_filter] at hx1 hx2
  obtain ⟨p, ⟨hp, hpb⟩, rfl⟩ := hx1
  obtain ⟨q, ⟨hq, hqb⟩, hqx⟩ := hx2
  have hpq : p = q := List.inj_on_of_nodup_map h hp hq hqx.symm
  subst hpq
  simp [hpb] at hqb

/-- Every visited name lands in exactly the outcome split matching its
classification. -/
theorem filterSplit_mem {α : Type} (l : List (α × Bool)) (x : α) :
    x ∈ l.map Prod.fst ↔
      (x ∈ (l.filter (fun p => p.2)).map Prod.fst ∨
        x ∈ (l.filter (fun p => !p.2)).map Prod.fst) := by
  simp only [List.mem_map, List.mem_filter]
  constructor
  · rintro ⟨p, hp, rfl⟩
    by_cases hb : p.2
    · exact Or.inl ⟨p, ⟨hp, by simp [hb]⟩, rfl⟩
    · exact Or.inr ⟨p, ⟨hp, by simp [hb]⟩, rfl⟩
  · rintro (⟨p, ⟨hp, -⟩, rfl⟩ | ⟨p, ⟨hp, -⟩, rfl⟩) <;> exact ⟨p, hp, rfl⟩

/-- The two outcome splits cover the run. -/
theorem filterSplit_length {α : Type} (l : List (α × Bool)) :
    (l.filter (fun p => p.2)).length + (l.filter (fun p => !p.2)).length = l.length := by
  induction l with
  | nil => rfl
  | cons a l ih =>
    by_cases hb : a.2 <;> simp [List.filter_cons, hb] <;> omega

/-- The catalog lists every tool once. -/
theorem TOOL_ORDER_nodup : TOOL_ORDER.Nodup := by decide

/-- Planner-produced pending lists repeat no tool when the selection does
not: every pending-install list the program builds satisfies the
duplicate-freedom C5 assumes. -/
theorem build_install_plan_nodup (p : String → Bool) (sel : List String)
    (h : sel.Nodup) : (PackagesManager._build_install_plan p sel).2.Nodup :=
  h.filter _

/-- C5: the Batch Installer attempts every pending tool exactly once in
list order whatever each install returns (no abort on failure); the
`success_tools` and `failed_tools` classifications are disjoint and
partition the pending list; and the batch's returned flag is true exactly
when `failed_tools` is empty.  The pending list is assumed duplicate-free,
which `TOOL_ORDER_nodup` and `build_install_plan_nodup` establish for
every pending list the program constructs. -/
theorem claim_C5 :
    ∀ (σ : Type) (r : Runner σ) (m : PackagesManager) (tools : List String) (s : σ),
      tools.Nodup →
      (∀ s' : σ, (m.installLoop r tools s').1.map Prod.fst = tools) ∧
      List.Disjoint (m.batchResults r tools s).1 (m.batchResults r tools s).2 ∧
      (∀ t, t ∈ tools ↔
        (t ∈ (m.batchResults r tools s).1 ∨ t ∈ (m.batchResults r tools s).2)) ∧
      (m.batchResults r tools s).1.length + (m.batchResults r tools s).2.length =
        tools.length ∧
      ((m._execute_install_batch r tools s).1 = true ↔
        (m.batchResults r tools s).2 = []) := by
  intro σ r m tools s hnd
  have hloop : ∀ s' : σ, (m.installLoop r tools s').1.map Prod.fst = tools :=
    fun s' => installLoop_map_fst r m tools s'
  have hfst : ((m.installLoop r tools (m.batchStartState r tools s)).1.map Prod.fst) =
      tools := hloop _
  have hnd' : (((m.installLoop r tools
      (m.batchStartState r tools s)).1.map Prod.fst)).Nodup := by
    rw [hfst]; exact hnd
  have hsucc : (m.batchResults r tools s).1 =
      ((m.installLoop r tools (m.batchStartState r tools s)).1.filter
        (fun p => p.2)).map Prod.fst := rfl
  have hfail : (m.batchResults r tools s).2 =
      ((m.installLoop r tools (m.batchStartState r tools s)).1.filter
        (fun p => !p.2)).map Prod.fst := rfl
  refine ⟨hloop, ?_, ?_, ?_, ?_⟩
  · rw [hsucc, hfail]
    exact filterSplit_disjoint _ hnd'
  · intro t
    rw [hsucc, hfail]
    conv_lhs => rw [← hfst]
    exact filterSplit_mem _ t
  · rw [hsucc, hfail, List.length_map, List.length_map, filterSplit_length]
    conv_rhs => rw [← hfst]
    rw [List.length_map]
  · have hbatch : (m._execute_install_batch r tools s).1 =
        ((m.batchResults r tools s).2).isEmpty := rfl
    rw [hbatch]
    simp [List.isEmpty_iff]

/-- Witness for C5: the spec's three-tool scenario in which only the
middle tool fails. -/
theorem claim_C5_witness :
    (aptMgr.batchResults pickyRunner tools3 () = (["htop", "tree"], ["micro"])) ∧
    ((aptMgr._execute_install_batch pickyRunner tools3 ()).1 = true ↔
      (aptMgr.batchResults pickyRunner tools3 ()).2 = []) :=
  ⟨by decide, (claim_C5 Unit pickyRunner aptMgr tools3 () (by decide)).2.2.2.2⟩

/-- Witness for C6 at a concrete snapshot. -/
theorem claim_C6_witness :
    (PackagesManager._build_install_plan (fun t => t == "htop") ["htop", "micro"]).1 =
      ["htop", "micro"].filter (fun t => t == "htop") :=
  (claim_C6 (fun t => t == "htop") ["htop", "micro"]).1

set_option maxRecDepth 4096 in
/-- C1 as written is false: under `flagRunner` the `nvm-node` installer
exits nonzero while leaving a detectable installation behind, and
`install_package` classifies the tool as failed even though the
post-install detection check passes — the nonzero exit alone decided the
classification, so "succeeded iff detection passes" does not hold. -/
theorem claim_C1_counterexample :
    PackagesManager.install_package flagRunner aptMgr "nvm-node" false = (false, true) ∧
    (PackagesManager._is_installed flagRunner aptMgr "nvm-node" true).1 = true ∧
    ¬ ((PackagesManager.install_package flagRunner aptMgr "nvm-node" false).1 = true ↔
        (PackagesManager._is_installed flagRunner aptMgr "nvm-node"
          (PackagesManager.install_package flagRunner aptMgr "nvm-node" false).2).1 = true) := by
  decide

/-- For a non-script tool, `install_package` is the pre-install check or
else exactly the exit status of the package-manager install command. -/
theorem install_package_pm_exit {σ : Type} (r : Runner σ) (m : PackagesManager)
    (tool : String) (s : σ) (hscript : m._is_script_tool tool = false) :
    (m.install_package r tool s).1 =
      ((m._is_installed r tool s).1 ||
        ((r.exec ("sudo" :: get_install_command [m._get_package_name tool] m.pm)
            (m._is_installed r tool s).2).1.rc == 0)) := by
  cases hinst : m._is_installed r tool s with
  | mk inst s1 =>
    cases inst with
    | true => simp [PackagesManager.install_package, hinst]
    | false =>
      simp only [PackagesManager.install_package, hinst, Bool.false_or, if_false,
        hscript, run_sudo, run_command]
      cases hexec : r.exec ("sudo" :: get_install_command [m._get_package_name tool] m.pm) s1 with
      | mk o s2 => simp [hexec]

/-- C1 (amended): the pre-install check short-circuits to success; beyond
that, a package-manager-installed tool is classified by the installer
command's exit status alone (no post-install detection runs), and the
`nvm-node` script tool is classified as succeeded exactly when its
installer exits zero and the post-install detection check then passes — a
nonzero installer exit marks failure directly without consulting the
detector. -/
theorem claim_C1 :
    (∀ (σ : Type) (r : Runner σ) (m : PackagesManager) (tool : String) (s : σ),
      m._is_script_tool tool = false →
      (m.install_package r tool s).1 =
        ((m._is_installed r tool s).1 ||
          ((r.exec ("sudo" :: get_install_command [m._get_package_name tool] m.pm)
              (m._is_installed r tool s).2).1.rc == 0))) ∧
    (∀ (σ : Type) (r : Runner σ) (m : PackagesManager) (s : σ),
      (m.install_package r "nvm-node" s).1 =
        ((m._is_installed r "nvm-node" s).1 ||
          (((r.exec ["bash", "-lc", nvmInstallScript]
              (m._is_installed r "nvm-node" s).2).1.rc == 0) &&
            (m._is_installed r "nvm-node"
              (r.exec ["bash", "-lc", nvmInstallScript]
                (m._is_installed r "nvm-node" s).2).2).1))) := by
  constructor
  · intro σ r m tool s hscript
    exact install_package_pm_exit r m tool s hscript
  · intro σ r m s
    cases hinst : m._is_installed r "nvm-node" s with
    | mk inst s1 =>
      cases inst with
      | true => simp [PackagesManager.install_package, hinst]
      | false =>
        have hscript : m._is_script_tool "nvm-node" = true := rfl
        simp only [PackagesManager.install_package, hinst, Bool.false_or, if_false,
          hscript, if_true, PackagesManager._install_script_tool, if_pos,
          PackagesManager._install_nvm_node, run_command]
        cases hexec : r.exec ["bash", "-lc", nvmInstallScript] s1 with
        | mk o s2 =>
          simp only [hexec]
          by_cases hrc : o.rc = 0
          · simp [hrc]
          · simp [hrc, if_neg]

/-- Witness for C1 at a concrete input: an apt platform where every
command exits 0 and nothing is on `PATH`. -/
theorem claim_C1_witness :
    (aptMgr.install_package (constRunner 0) "htop" ()).1 =
      ((aptMgr._is_installed (constRunner 0) "htop" ()).1 ||
        (((constRunner 0).exec
            ("sudo" :: get_install_command [aptMgr._get_package_name "htop"] aptMgr.pm)
            (aptMgr._is_installed (constRunner 0) "htop" ()).2).1.rc == 0)) :=
  claim_C1.1 Unit (constRunner 0) aptMgr "htop" () (by decide)

/-- C2 as written is false: on the unknown-package-manager platform the
Batch Installer does hand the sentinel argv to the Command Runner
(`sudo echo Unknown package manager htop` is executed), and because `echo`
exits 0 the tool is classified as succeeded, not failed. -/
theorem claim_C2_counterexample :
    PackagesManager.install_package echoRunner unknownMgr "htop" [] =
      (true, [["sudo", "echo", "Unknown package manager", "htop"]]) ∧
    ¬ ((PackagesManager.install_package echoRunner unknownMgr "htop" []).1 = false ∧
        (PackagesManager.install_package echoRunner unknownMgr "htop" []).2 = []) := by
  decide

/-- C2 (amended): under the unknown package-manager family the package
name falls back to the tool name, `get_install_command` returns the
sentinel `echo` argv, and `install_package` does execute that sentinel
via `run_sudo`, classifying the tool by the sentinel's exit status (so a
working `sudo echo` classifies it as succeeded). -/
theorem claim_C2 :
    ∀ (σ : Type) (r : Runner σ) (m : PackagesManager) (tool : String) (s : σ),
      m.pm = PackageManager.unknown → m._is_script_tool tool = false →
      m._get_package_name tool = tool ∧
      get_install_command [m._get_package_name tool] m.pm =
        ["echo", "Unknown package manager", tool] ∧
      (m.install_package r tool s).1 =
        ((m._is_installed r tool s).1 ||
          ((r.exec ["sudo", "echo", "Unknown package manager", tool]
              (m._is_installed r tool s).2).1.rc == 0)) := by
  intro σ r m tool s hpm hscript
  have hname : m._get_package_name tool = tool := by
    unfold PackagesManager._get_package_name
    rw [hscript]
    simp only [Bool.false_eq_true, if_false]
    cases hfind : COMMON_PACKAGES.find? (fun p => p.1 == tool) with
    | none => rfl
    | some pr =>
      cases pr with
      | mk nm info => simp [hpm, PkgInfo.pkgFor]
  have hcmd : get_install_command [m._get_package_name tool] m.pm =
      ["echo", "Unknown package manager", tool] := by
    rw [hname, hpm]
    rfl
  refine ⟨hname, hcmd, ?_⟩
  have := install_package_pm_exit r m tool s hscript
  rw [this, hcmd]

/-- Witness for C2 at a concrete input. -/
theorem claim_C2_witness :
    unknownMgr._get_package_name "htop" = "htop" ∧
    get_install_command [unknownMgr._get_package_name "htop"] unknownMgr.pm =
      ["echo", "Unknown package manager", "htop"] ∧
    (unknownMgr.install_package echoRunner "htop" []).1 =
      ((unknownMgr._is_installed echoRunner "htop" []).1 ||
        ((echoRunner.exec ["sudo", "echo", "Unknown package manager", "htop"]
            (unknownMgr._is_installed echoRunner "htop" []).2).1.rc == 0)) :=
  claim_C2 (List (List String)) echoRunner unknownMgr "htop" [] rfl (by decide)

/-- C7 as written is false: two successive `get_package_manager()` calls
in the same process open `/etc/os-release` twice — the detection result is
not memoized, so the file is re-read after the first computation. -/
theorem claim_C7_counterexample :
    get_package_manager ubuntuEnv ((get_package_manager ubuntuEnv 0).2) =
      (PackageManager.apt, 2) ∧
    ¬ ((get_package_manager ubuntuEnv ((get_package_manager ubuntuEnv 0).2)).2 ≤ 1) := by
  decide

/-- C7 (amended): distro detection is deterministic — its result depends
only on the host facts, never on how often it has already run — but it is
not memoized: every `detect_distro` call re-reads the OS-identification
file (when present), `get_package_manager` re-runs the detection on every
call, and only a `PackagesManager` instance caches the result, computing
it once at construction. -/
theorem claim_C7 :
    ∀ (env : OsEnv) (n k : Nat),
      (detect_distro env n).1 = (detect_distro env k).1 ∧
      (detect_distro env n).2 = n + (if env.os_release_present then 1 else 0) ∧
      get_package_manager env n =
        ((detect_distro env n).1.package_manager, (detect_distro env n).2) ∧
      PackagesManager.ofEnv env n =
        ({ distro := (detect_distro env n).1,
           pm := (detect_distro env n).1.package_manager }, (detect_distro env n).2) := by
  intro env n k
  refine ⟨rfl, ?_, rfl, rfl⟩
  cases h : env.os_release_present <;> simp [detect_distro, h]

/-! ### Trace lemmas for the batch's package-index update -/

/-- The empty extension. -/
theorem LogExt.refl (pm : PackageManager) (log : List (List String)) :
    LogExt pm log log :=
  ⟨[], by simp, by simp⟩

/-- Extensions compose. -/
theorem LogExt.trans {pm : PackageManager} {a b c : List (List String)}
    (h1 : LogExt pm a b) (h2 : LogExt pm b c) : LogExt pm a c := by
  obtain ⟨d1, rfl, hd1⟩ := h1
  obtain ⟨d2, rfl, hd2⟩ := h2
  refine ⟨d1 ++ d2, by simp, ?_⟩
  intro h
  rcases List.mem_append.mp h with h | h
  · exact hd1 h
  · exact hd2 h

/-- One executed command other than the update extends the log. -/
theorem LogExt.step {pm : PackageManager} (log : List (List String))
    {argv : List String} (h : argv ≠ updateArgv pm) :
    LogExt pm log (log ++ [argv]) :=
  ⟨[argv], rfl, by simp [Ne.symm h]⟩

/-- A command whose first word is not `sudo` is never the update argv. -/
theorem cons_ne_updateArgv {pm : PackageManager} {h : String} {t : List String}
    (hne : h ≠ "sudo") : (h :: t) ≠ updateArgv pm := by
  intro heq
  rw [updateArgv] at heq
  injection heq with h1 _
  exact hne h1

/-- The go installer's `sudo rm` is never the update argv. -/
theorem sudo_rm_ne_updateArgv (pm : PackageManager) (a b : String) :
    ["sudo", "rm", a, b] ≠ updateArgv pm := by
  intro h
  cases pm <;> simp [updateArgv, get_update_command] at h

/-- The go installer's `sudo tar` is never the update argv. -/
theorem sudo_tar_ne_updateArgv (pm : PackageManager) (a b c d : String) :
    ["sudo", "tar", a, b, c, d] ≠ updateArgv pm := by
  intro h
  cases pm <;> simp [updateArgv, get_update_command] at h

/-- A single-package install command is never the update command. -/
theorem install_ne_updateArgv (pm : PackageManager) (pkg : String) :
    ("sudo" :: get_install_command [pkg] pm) ≠ updateArgv pm := by
  intro h
  cases pm <;> simp [updateArgv, get_update_command, get_install_command] at h

/-- The installed-state check never executes the update command: it runs
at most the nvm marker test. -/
theorem is_installed_log {σ : Type} (r : Runner σ) (m : PackagesManager) (tool : String)
    (s : σ) (log : List (List String)) :
    LogExt m.pm log ((m._is_installed (traced r) tool (s, log)).2).2 := by
  by_cases htool : tool = "nvm-node"
  · subst htool
    simp only [PackagesManager._is_installed, if_pos rfl, run_command, traced]
    cases hexec : r.exec nvmMarkerArgv s with
    | mk o s1 =>
      simp only [hexec]
      by_cases hrc : o.rc ≠ 0
      · simp only [if_pos hrc]
        exact LogExt.step log (cons_ne_updateArgv (by decide))
      · simp only [if_neg hrc]
        exact LogExt.step log (cons_ne_updateArgv (by decide))
  · simp only [PackagesManager._is_installed, if_neg htool]
    exact LogExt.refl m.pm log

/-- The nvm installer never executes the update command. -/
theorem install_nvm_node_log {σ : Type} (r : Runner σ) (m : PackagesManager)
    (s : σ) (log : List (List String)) :
    LogExt m.pm log ((m._install_nvm_node (traced r) (s, log)).2).2 := by
  simp only [PackagesManager._install_nvm_node, run_command, traced]
  cases hexec : r.exec ["bash", "-lc", nvmInstallScript] s with
  | mk o s1 =>
    simp only [hexec]
    by_cases hrc : o.rc ≠ 0
    · simp only [if_pos hrc]
      exact LogExt.step log (cons_ne_updateArgv (by decide))
    · simp only [if_neg hrc]
      exact (LogExt.step log (cons_ne_updateArgv (by decide))).trans
        (is_installed_log r m "nvm-node" s1 _)

/-- The opencode installer never executes the update command. -/
theorem install_opencode_log {σ : Type} (r : Runner σ) (m : PackagesManager)
    (s : σ) (log : List (List String)) :
    LogExt m.pm log ((m._install_opencode (traced r) (s, log)).2).2 := by
  simp only [PackagesManager._install_opencode, run_command, traced]
  cases hexec : r.exec ["bash", "-lc", "curl -fsSL https://opencode.ai/install | bash"] s with
  | mk o s1 =>
    simp only [hexec]
    by_cases hrc : o.rc ≠ 0
    · simp only [if_pos hrc]
      exact LogExt.step log (cons_ne_updateArgv (by decide))
    · simp only [if_neg hrc]
      exact (LogExt.step log (cons_ne_updateArgv (by decide))).trans
        (is_installed_log r m "opencode" s1 _)

/-- The claude-code installer never executes the update command. -/
theorem install_claude_code_log {σ : Type} (r : Runner σ) (m : PackagesManager)
    (s : σ) (log : List (List String)) :
    LogExt m.pm log ((m._install_claude_code (traced r) (s, log)).2).2 := by
  simp only [PackagesManager._install_claude_code, run_command, traced]
  cases hexec : r.exec ["bash", "-lc", "curl -fsSL https://claude.ai/install.sh | bash"] s with
  | mk o s1 =>
    simp only [hexec]
    by_cases hrc : o.rc ≠ 0
    · simp only [if_pos hrc]
      exact LogExt.step log (cons_ne_updateArgv (by decide))
    · simp only [if_neg hrc]
      exact (LogExt.step log (cons_ne_updateArgv (by decide))).trans
        (is_installed_log r m "claude-code" s1 _)

/-- The rust installer never executes the update command. -/
theorem install_rust_log {σ : Type} (r : Runner σ) (m : PackagesManager)
    (s : σ) (log : List (List String)) :
    LogExt m.pm log ((m._install_rust (traced r) (s, log)).2).2 := by
  simp only [PackagesManager._install_rust, run_command, traced]
  cases hexec : r.exec
      ["bash", "-lc",
        "curl --proto '=https' --tlsv1.2 -sSf https://sh.rustup.rs | sh -s -- -y"] s with
  | mk o s1 =>
    simp only [hexec]
    by_cases hrc : o.rc ≠ 0
    · simp only [if_pos hrc]
      exact LogExt.step log (cons_ne_updateArgv (by decide))
    · simp only [if_neg hrc]
      exact (LogExt.step log (cons_ne_updateArgv (by decide))).trans
        (is_installed_log r m "rust" s1 _)

/-- The brew installer never executes the update command. -/
theorem install_brew_log {σ : Type} (r : Runner σ) (m : PackagesManager)
    (s : σ) (log : List (List String)) :
    LogExt m.pm log ((m._install_brew (traced r) (s, log)).2).2 := by
  simp only [PackagesManager._install_brew, run_command, traced]
  cases hexec : r.exec ["bash", "-lc", brewInstallScript] s with
  | mk o s1 =>
    simp only [hexec]
    by_cases hrc : o.rc ≠ 0
    · simp only [if_pos hrc]
      exact LogExt.step log (cons_ne_updateArgv (by decide))
    · simp only [if_neg hrc]
      exact (LogExt.step log (cons_ne_updateArgv (by decide))).trans
        (is_installed_log r m "brew" s1 _)

/-- The go installer never executes the update command. -/
theorem install_go_log {σ : Type} (r : Runner σ) (m : PackagesManager)
    (s : σ) (log : List (List String)) :
    LogExt m.pm log ((m._install_go (traced r) (s, log)).2).2 := by
  simp only [PackagesManager._install_go, run_command, run_sudo, traced]
  cases h1 : r.exec ["uname", "-m"] s with
  | mk o1 s1 =>
    simp only [h1]
    by_cases hrc1 : o1.rc ≠ 0
    · rw [if_pos hrc1]
      exact LogExt.step log (cons_ne_updateArgv (by decide))
    · rw [if_neg hrc1]
      cases harch : goArchMap (pyStrip o1.stdout) with
      | none => exact LogExt.step log (cons_ne_updateArgv (by decide))
      | some go_arch =>
        cases h2 : r.exec ["bash", "-lc", "curl -fsSL 'https://go.dev/VERSION?m=text'"] s1 with
        | mk o2 s2 =>
          simp only [h2]
          by_cases hrc2 : o2.rc ≠ 0
          · rw [if_pos hrc2]
            exact (LogExt.step log (cons_ne_updateArgv (by decide))).trans
              (LogExt.step _ (cons_ne_updateArgv (by decide)))
          · rw [if_neg hrc2]
            by_cases hver : pyStartswith "go" (goVersionOf o2.stdout) = true
            · rw [if_neg (by simp [hver])]
              cases h3 : r.exec
                  ["curl", "-fsSL", "-o", goTarball (goVersionOf o2.stdout) go_arch,
                    goUrl (goVersionOf o2.stdout) go_arch] s2 with
              | mk o3 s3 =>
                simp only [h3]
                by_cases hrc3 : o3.rc ≠ 0
                · rw [if_pos hrc3]
                  exact ((LogExt.step log (cons_ne_updateArgv (by decide))).trans
                    (LogExt.step _ (cons_ne_updateArgv (by decide)))).trans
                    (LogExt.step _ (cons_ne_updateArgv (by decide)))
                · rw [if_neg hrc3]
                  cases h4 : r.exec ["sudo", "rm", "-rf", "/usr/local/go"] s3 with
                  | mk o4 s4 =>
                    simp only [h4]
                    by_cases hok4 : (o4.rc == 0) = true
                    · rw [if_neg (by simp [hok4])]
                      cases h5 : r.exec
                          ["sudo", "tar", "-C", "/usr/local", "-xzf",
                            goTarball (goVersionOf o2.stdout) go_arch] s4 with
                      | mk o5 s5 =>
                        simp only [h5]
                        cases h6 : r.exec
                            ["rm", "-f", goTarball (goVersionOf o2.stdout) go_arch] s5 with
                        | mk o6 s6 =>
                          simp only [h6]
                          by_cases hok5 : (o5.rc == 0) = true
                          · rw [if_neg (by simp [hok5])]
                            cases h7 : r.exec ["test", "-x", "/usr/local/go/bin/go"] s6 with
                            | mk o7 s7 =>
                              simp only [h7]
                              by_cases hrc7 : o7.rc ≠ 0
                              · rw [if_pos hrc7]
                                exact ((((((LogExt.step log
                                  (cons_ne_updateArgv (by decide))).trans
                                  (LogExt.step _ (cons_ne_updateArgv (by decide)))).trans
                                  (LogExt.step _ (cons_ne_updateArgv (by decide)))).trans
                                  (LogExt.step _ (sudo_rm_ne_updateArgv m.pm _ _))).trans
                                  (LogExt.step _
                                    (sudo_tar_ne_updateArgv m.pm _ _ _ _))).trans
                                  (LogExt.step _ (cons_ne_updateArgv (by decide)))).trans
                                  (LogExt.step _ (cons_ne_updateArgv (by decide)))
                              · rw [if_neg hrc7]
                                refine LogExt.trans ?_ (is_installed_log r m "go" s7 _)
                                exact ((((((LogExt.step log
                                  (cons_ne_updateArgv (by decide))).trans
                                  (LogExt.step _ (cons_ne_updateArgv (by decide)))).trans
                                  (LogExt.step _ (cons_ne_updateArgv (by decide)))).trans
                                  (LogExt.step _ (sudo_rm_ne_updateArgv m.pm _ _))).trans
                                  (LogExt.step _
                                    (sudo_tar_ne_updateArgv m.pm _ _ _ _))).trans
                                  (LogExt.step _ (cons_ne_updateArgv (by decide)))).trans
                                  (LogExt.step _ (cons_ne_updateArgv (by decide)))
                          · rw [if_pos (by simp [hok5])]
                            exact (((((LogExt.step log
                              (cons_ne_updateArgv (by decide))).trans
                              (LogExt.step _ (cons_ne_updateArgv (by decide)))).trans
                              (LogExt.step _ (cons_ne_updateArgv (by decide)))).trans
                              (LogExt.step _ (sudo_rm_ne_updateArgv m.pm _ _))).trans
                              (LogExt.step _ (sudo_tar_ne_updateArgv m.pm _ _ _ _))).trans
                              (LogExt.step _ (cons_ne_updateArgv (by decide)))
                    · rw [if_pos (by simp [hok4])]
                      exact (((LogExt.step log (cons_ne_updateArgv (by decide))).trans
                        (LogExt.step _ (cons_ne_updateArgv (by decide)))).trans
                        (LogExt.step _ (cons_ne_updateArgv (by decide)))).trans
                        (LogExt.step _ (sudo_rm_ne_updateArgv m.pm _ _))
            · rw [if_pos (by simp [hver])]
              exact (LogExt.step log (cons_ne_updateArgv (by decide))).trans
                (LogExt.step _ (cons_ne_updateArgv (by decide)))

/-- No script installer ever executes the update command. -/
theorem install_script_tool_log {σ : Type} (r : Runner σ) (m : PackagesManager)
    (tool : String) (s : σ) (log : List (List String)) :
    LogExt m.pm log ((m._install_script_tool (traced r) tool (s, log)).2).2 := by
  unfold PackagesManager._install_script_tool
  by_cases h1 : tool = "nvm-node"
  · rw [if_pos h1]; exact install_nvm_node_log r m s log
  · rw [if_neg h1]
    by_cases h2 : tool = "opencode"
    · rw [if_pos h2]; exact install_opencode_log r m s log
    · rw [if_neg h2]
      by_cases h3 : tool = "claude-code"
      · rw [if_pos h3]; exact install_claude_code_log r m s log
      · rw [if_neg h3]
        by_cases h4 : tool = "rust"
        · rw [if_pos h4]; exact install_rust_log r m s log
        · rw [if_neg h4]
          by_cases h5 : tool = "go"
          · rw [if_pos h5]; exact install_go_log r m s log
          · rw [if_neg h5]
            by_cases h6 : tool = "brew"
            · rw [if_pos h6]; exact install_brew_log r m s log
            · rw [if_neg h6]; exact LogExt.refl m.pm log

/-- `install_package` never executes the update command: a pm tool runs
only its single-package install command, a script tool only its installer
recipe. -/
theorem install_package_log {σ : Type} (r : Runner σ) (m : PackagesManager)
    (tool : String) (s : σ) (log : List (List String)) :
    LogExt m.pm log ((m.install_package (traced r) tool (s, log)).2).2 := by
  unfold PackagesManager.install_package
  cases hinst : m._is_installed (traced r) tool (s, log) with
  | mk inst s1 =>
    have hpre : LogExt m.pm log s1.2 := by
      have := is_installed_log r m tool s log
      rw [hinst] at this
      exact this
    cases inst with
    | true => exact hpre
    | false =>
      simp only [hinst, Bool.false_eq_true, if_false]
      by_cases hscript : m._is_script_tool tool = true
      · rw [if_pos hscript]
        cases s1 with
        | mk sb lb =>
          exact hpre.trans (install_script_tool_log r m tool sb lb)
      · rw [if_neg hscript]
        cases s1 with
        | mk sb lb =>
          simp only [run_sudo, run_command, traced]
          cases hexec : r.exec
              ("sudo" :: get_install_command [m._get_package_name tool] m.pm) sb with
          | mk o s2 =>
            exact hpre.trans (LogExt.step lb (install_ne_updateArgv m.pm _))

/-- The whole per-tool loop never executes the update command. -/
theorem installLoop_log {σ : Type} (r : Runner σ) (m : PackagesManager)
    (tools : List String) (s : σ) (log : List (List String)) :
    LogExt m.pm log ((m.installLoop (traced r) tools (s, log)).2).2 := by
  induction tools generalizing s log with
  | nil => exact LogExt.refl m.pm log
  | cons t ts ih =>
    cases hpkg : m.install_package (traced r) t (s, log) with
    | mk ok s1 =>
      have h1 : LogExt m.pm log s1.2 := by
        have := install_package_log r m t s log
        rw [hpkg] at this
        exact this
      cases s1 with
      | mk sb lb =>
        cases hloop : m.installLoop (traced r) ts (sb, lb) with
        | mk res s2 =>
          have h2 : LogExt m.pm lb s2.2 := by
            have := ih sb lb
            rw [hloop] at this
            exact this
          simp only [PackagesManager.installLoop, hpkg, hloop]
          exact h1.trans h2

/-- C8: when the pending list holds at least one package-manager-installed
tool, the batch's command trace starts with the platform's package-index
update command, run exactly once, before any individual install, and never
again; with only script tools pending the update command is never
executed; and whatever state the update leaves behind (its exit code is
never inspected), the per-tool loop still attempts every pending tool in
order. -/
theorem claim_C8 :
    ∀ (σ : Type) (r : Runner σ) (m : PackagesManager) (tools : List String) (s : σ),
      ((∃ t ∈ tools, m._is_script_tool t = false) →
        ∃ d, ((m._execute_install_batch (traced r) tools (s, [])).2).2 =
            updateArgv m.pm :: d ∧
          updateArgv m.pm ∉ d) ∧
      ((∀ t ∈ tools, m._is_script_tool t = true) →
        updateArgv m.pm ∉ ((m._execute_install_batch (traced r) tools (s, [])).2).2) ∧
      (∀ s' : σ × List (List String),
        (m.installLoop (traced r) tools s').1.map Prod.fst = tools) := by
  intro σ r m tools s
  have hbatch : ((m._execute_install_batch (traced r) tools (s, [])).2).2 =
      ((m.installLoop (traced r) tools
        (m.batchStartState (traced r) tools (s, []))).2).2 := rfl
  refine ⟨?_, ?_, fun s' => installLoop_map_fst (traced r) m tools s'⟩
  · intro h
    obtain ⟨t, ht, hs⟩ := h
    have hne : (tools.filter (fun u => !m._is_script_tool u)).isEmpty = false := by
      rw [List.isEmpty_eq_false_iff_exists_mem]
      exact ⟨t, List.mem_filter.mpr ⟨ht, by simp [hs]⟩⟩
    cases hexec : r.exec ("sudo" :: get_update_command m.pm) s with
    | mk o s1 =>
      have hstart : m.batchStartState (traced r) tools (s, []) = (s1, [updateArgv m.pm]) := by
        simp only [PackagesManager.batchStartState, hne, Bool.false_eq_true, if_false,
          run_sudo, run_command, traced, hexec, updateArgv]
        simp [hexec]
      obtain ⟨d, hd, hnd⟩ := installLoop_log r m tools s1 [updateArgv m.pm]
      refine ⟨d, ?_, hnd⟩
      rw [hbatch, hstart, hd]
      simp
  · intro h
    have hempty : (tools.filter (fun u => !m._is_script_tool u)).isEmpty = true := by
      simp only [List.isEmpty_iff, List.filter_eq_nil_iff]
      intro t ht
      simp [h t ht]
    have hstart : m.batchStartState (traced r) tools (s, []) = (s, []) := by
      simp only [PackagesManager.batchStartState, hempty, if_true]
    obtain ⟨d, hd, hnd⟩ := installLoop_log r m tools s []
    rw [hbatch, hstart, hd]
    simpa using hnd

/-- Witness for C8: a pending list with package-manager tools on an apt
platform. -/
theorem claim_C8_witness :
    ∃ d, ((aptMgr._execute_install_batch (traced (constRunner 0)) tools3 ((), [])).2).2 =
        updateArgv aptMgr.pm :: d ∧
      updateArgv aptMgr.pm ∉ d :=
  (claim_C8 Unit (constRunner 0) aptMgr tools3 ()).1 ⟨"htop", by decide, by decide⟩
